import Mathlib

/-!
Verification of the credential lifecycle and connection-resilience subsystem
of the twitch-subdays bot.  The JavaScript source is shallowly embedded:
times are integers in milliseconds, the database table of OAuth tokens is a
list of rows, provider HTTP interactions are passed in as response values,
and the event-driven reconnection handler is a step function over event
traces.
-/

set_option autoImplicit false

namespace TwitchBot

/-- Model of the JS value stored in the expires_at column as seen by
isTokenExpired: null / undefined / empty string are all falsy and are
collapsed into the null case; a non-empty string (or Date) that parses to a
time is date t; a non-empty string that new Date rejects is malformed. -/
inductive ExpiryField where
  | null
  | malformed
  | date (t : Int)
deriving DecidableEq, Repr

/-- JS number that may be NaN: none is NaN.  Subtraction propagates NaN. -/
def jsSub : Option Int → Option Int → Option Int
  | some a, some b => some (a - b)
  | _, _ => none

/-- JS comparison a < b: any comparison against NaN is false. -/
def jsLt : Option Int → Option Int → Bool
  | some a, some b => a < b
  | _, _ => false

/-- Result of new Date(expiresAt).getTime() on a non-null field.  (On the
null case new Date(null).getTime() would be 0, but isTokenExpired returns
before parsing in that case.) -/
def parseGetTime : ExpiryField → Option Int
  | .null => some 0
  | .malformed => none
  | .date t => some t

/-- Embedding of isTokenExpired (index.js): falsy expiresAt means expired;
otherwise the parsed expiry time is compared with now plus a 5 minute
margin using the JS expression expiryTime - now < 5 * 60 * 1000. -/
def isTokenExpired (expiresAt : ExpiryField) (now : Int) : Bool :=
  match expiresAt with
  | .null => true
  | e => jsLt (jsSub (parseGetTime e) (some now)) (some (5 * 60 * 1000))

/-- Provider response to the refresh-token grant exchange: ok is
response.ok, the remaining fields are the parsed JSON body.  The provider
may omit the refresh token (none also covers an empty string, which is
falsy in the JS fallback data.refresh_token or refreshToken). -/
structure RefreshResponse where
  ok : Bool
  access_token : String
  refresh_token : Option String
  expires_in : Int
deriving DecidableEq, Repr

/-- Value returned by a successful refreshAccessToken call. -/
structure RefreshResult where
  access_token : String
  refresh_token : String
  expires_in : Int
deriving DecidableEq, Repr

/-- Embedding of refreshAccessToken: fails when the refresh token is
absent, when TWITCH_CLIENT_ID or TWITCH_CLIENT_SECRET is unset (none also
covers the falsy empty string), or when the provider response is not ok;
otherwise returns the new access token, the provider refresh token with
fallback to the supplied one, and the relative expiry in seconds. -/
def refreshAccessToken (refreshToken clientId clientSecret : Option String)
    (resp : RefreshResponse) : Except String RefreshResult :=
  match refreshToken with
  | none => .error "No refresh token available"
  | some rt =>
    match clientId, clientSecret with
    | some _, some _ =>
      if resp.ok then
        .ok { access_token := resp.access_token
              refresh_token := resp.refresh_token.getD rt
              expires_in := resp.expires_in }
      else .error "Token refresh failed"
    | _, _ =>
      .error "TWITCH_CLIENT_ID and TWITCH_CLIENT_SECRET must be set in environment variables"

/-- One row of the twitch_oauth_tokens table.  id is the SERIAL primary
key; username is UNIQUE. -/
structure TokenRow where
  id : Nat
  username : String
  access_token : String
  refresh_token : Option String
  expires_at : ExpiryField
  scope : Option String
deriving DecidableEq, Repr

/-- The columns selected by getTwitchToken (the id is not selected). -/
structure TokenData where
  username : String
  access_token : String
  refresh_token : Option String
  expires_at : ExpiryField
  scope : Option String
deriving DecidableEq, Repr

def TokenRow.toData (r : TokenRow) : TokenData :=
  { username := r.username
    access_token := r.access_token
    refresh_token := r.refresh_token
    expires_at := r.expires_at
    scope := r.scope }

/-- ORDER BY id DESC LIMIT 1: the row with the greatest id (ids are unique
in the table, being a SERIAL primary key). -/
def maxIdRow : List TokenRow → Option TokenRow
  | [] => none
  | r :: rs =>
    match maxIdRow rs with
    | none => some r
    | some m => if m.id > r.id then some m else some r

/-- Embedding of getTwitchToken (db.js): SELECT username, access_token,
refresh_token, expires_at, scope FROM twitch_oauth_tokens ORDER BY id DESC
LIMIT 1. -/
def getTwitchToken (rows : List TokenRow) : Option TokenData :=
  (maxIdRow rows).map TokenRow.toData

/-- Embedding of updateTwitchToken (db.js): UPDATE ... SET access_token,
refresh_token = COALESCE(new, old), expires_at WHERE username matches. -/
def updateTwitchToken (rows : List TokenRow) (username accessToken : String)
    (refreshToken : Option String) (expiresAt : Int) : List TokenRow :=
  rows.map fun r =>
    if r.username = username then
      { r with access_token := accessToken
               refresh_token := match refreshToken with
                 | some t => some t
                 | none => r.refresh_token
               expires_at := .date expiresAt }
    else r

/-- Embedding of saveTwitchToken (db.js): INSERT ... ON CONFLICT (username)
DO UPDATE, so an existing row for the username is overwritten in place and
otherwise a fresh row with the next serial id is appended. -/
def saveTwitchToken (rows : List TokenRow) (nextId : Nat)
    (username accessToken : String) (refreshToken : Option String)
    (expiresAt : Int) (scope : String) : List TokenRow :=
  if rows.any (fun r => r.username == username) then
    rows.map fun r =>
      if r.username = username then
        { r with access_token := accessToken
                 refresh_token := refreshToken
                 expires_at := .date expiresAt
                 scope := some scope }
      else r
  else
    rows ++ [{ id := nextId, username := username, access_token := accessToken,
               refresh_token := refreshToken, expires_at := .date expiresAt,
               scope := some scope }]

deriving instance DecidableEq for Except

/-- Output of getValidToken: the returned value or raised error, the
database state after the call, and how many provider refresh calls were
made during the call. -/
structure GetValidOut where
  result : Except String (Option TokenData)
  db : List TokenRow
  refreshCalls : Nat
deriving DecidableEq, Repr

def exceptIsError {α : Type} : Except String α → Bool
  | .error _ => true
  | .ok _ => false

/-- Embedding of getValidToken (index.js): read the latest stored token; if
none, return null; if expired, require a refresh token, refresh through the
provider, persist via updateTwitchToken with expiry now + expires_in * 1000
milliseconds, and return the refreshed record (the object literal in the
source carries no scope field); otherwise return the stored record
unchanged. -/
def getValidToken (rows : List TokenRow) (now : Int)
    (clientId clientSecret : Option String) (resp : RefreshResponse) :
    GetValidOut :=
  match getTwitchToken rows with
  | none => ⟨.ok none, rows, 0⟩
  | some tokenData =>
    if isTokenExpired tokenData.expires_at now then
      match tokenData.refresh_token with
      | none =>
        ⟨.error "Token expired and no refresh token available. Please re-authenticate.",
         rows, 0⟩
      | some rt =>
        match refreshAccessToken (some rt) clientId clientSecret resp with
        | .error e => ⟨.error e, rows, 1⟩
        | .ok refreshed =>
          let expiresAt := now + refreshed.expires_in * 1000
          ⟨.ok (some { username := tokenData.username
                       access_token := refreshed.access_token
                       refresh_token := some refreshed.refresh_token
                       expires_at := .date expiresAt
                       scope := none }),
           updateTwitchToken rows tokenData.username refreshed.access_token
             (some refreshed.refresh_token) expiresAt,
           1⟩
    else ⟨.ok (some tokenData), rows, 0⟩

/-- The oauthStates Map: an association list from state value to the
timestamp recorded at issue time.  Map keys are unique; set replaces any
existing entry for the key. -/
abbrev StateStore : Type := List (String × Int)

def statesSet (s : StateStore) (k : String) (v : Int) : StateStore :=
  (k, v) :: List.filter (fun p => p.1 != k) s

def statesHas (s : StateStore) (k : String) : Bool :=
  List.any s (fun p => p.1 == k)

def statesDelete (s : StateStore) (k : String) : StateStore :=
  List.filter (fun p => p.1 != k) s

/-- Embedding of the state handling of the /auth/twitch route: record the
freshly generated state with the current timestamp, then delete every entry
whose timestamp is strictly before now minus 10 minutes. -/
def initiateStates (states : StateStore) (newState : String) (now : Int) :
    StateStore :=
  List.filter (fun p => !(p.2 < now - 10 * 60 * 1000))
    (statesSet states newState now)

/-- Environment of one /auth/twitch/callback request: configuration, the
token-endpoint exchange response, and the validate-endpoint response. -/
structure CallbackEnv where
  clientId : Option String
  clientSecret : Option String
  exchangeOk : Bool
  access_token : String
  refresh_token : Option String
  expires_in : Int
  scope : String
  validateOk : Bool
  login : String
deriving DecidableEq, Repr

/-- The distinguishable responses of the callback route, in source order:
provider-reported error, missing code or state, state not in the registered
set, client id or secret unset, token exchange not ok (caught and rendered
as a 500), validation not ok (same), or the success page. -/
inductive CallbackResult where
  | providerError (e : String)
  | missingParams
  | invalidState
  | configError
  | exchangeFailed
  | validateFailed
  | success (username : String)
deriving DecidableEq, Repr

/-- Embedding of the /auth/twitch/callback route.  The output is the
rendered result, the state store after the request, and the token table
after the request.  The registered state entry is deleted immediately after
the membership check, before the configuration check and the code-for-token
exchange. -/
def handleCallback (code state errorParam : Option String)
    (states : StateStore) (rows : List TokenRow) (nextId : Nat)
    (env : CallbackEnv) (now : Int) :
    CallbackResult × StateStore × List TokenRow :=
  match errorParam with
  | some e => (.providerError e, states, rows)
  | none =>
    match code, state with
    | some _, some s =>
      if statesHas states s then
        let states2 := statesDelete states s
        if env.clientId.isNone || env.clientSecret.isNone then
          (.configError, states2, rows)
        else if !env.exchangeOk then (.exchangeFailed, states2, rows)
        else if !env.validateOk then (.validateFailed, states2, rows)
        else
          let expiresAt := now + env.expires_in * 1000
          (.success env.login, states2,
            saveTwitchToken rows nextId env.login env.access_token
              env.refresh_token expiresAt env.scope)
      else (.invalidState, states, rows)
    | _, _ => (.missingParams, states, rows)

/-- Outcome of one fired reconnection attempt, as observed by the handler
body: getValidToken returned null, getValidToken threw, client.connect
threw, or the connect call resolved. -/
inductive AttemptOutcome where
  | tokenNull
  | tokenError
  | connectError
  | connectOk
deriving DecidableEq, Repr

/-- Events delivered to the reconnection handlers: a disconnected event
(tagged with the outcome the attempt it schedules will have) or a connected
event. -/
inductive BotEvent where
  | disconnected (o : AttemptOutcome)
  | connected
deriving DecidableEq, Repr

/-- Embedding of setupReconnectionHandlers (index.js) as a step on the
reconnectAttempts counter.  The second component records whether a
reconnection attempt was scheduled and fired for this event.  The counter
is incremented only on the success path, after getValidToken returned a
token and client.connect resolved; the early return on a null token and the
catch around the body skip the increment. -/
def stepMain (attempts : Nat) : BotEvent → Nat × Bool
  | .connected => (0, false)
  | .disconnected o =>
    if attempts < 5 then
      match o with
      | .connectOk => (attempts + 1, true)
      | _ => (attempts, true)
    else (attempts, false)

/-- Embedding of the disconnect handler of the historical bot.js variant:
client.connect() is not awaited, so reconnectAttempts is incremented on
every fired attempt regardless of outcome. -/
def stepBot (attempts : Nat) : BotEvent → Nat × Bool
  | .connected => (0, false)
  | .disconnected _ =>
    if attempts < 5 then (attempts + 1, true) else (attempts, false)

/-- Run a reconnection step function over an event trace, counting how many
reconnection attempts are performed. -/
def runPerformed (step : Nat → BotEvent → Nat × Bool) :
    Nat → List BotEvent → Nat
  | _, [] => 0
  | a, e :: es =>
    let r := step a e
    (if r.2 then 1 else 0) + runPerformed step r.1 es

/-- Concrete refresh response that succeeds and omits the refresh token. -/
def respOmit : RefreshResponse :=
  { ok := true, access_token := "A2", refresh_token := none, expires_in := 3600 }

/-- Concrete refresh response with a non-success HTTP status. -/
def respFail : RefreshResponse :=
  { ok := false, access_token := "", refresh_token := none, expires_in := 0 }

/-- Concrete stored row: expired (10 seconds in the past of now = 0) with a
refresh token. -/
def rowEx : TokenRow :=
  { id := 1, username := "bot", access_token := "A1",
    refresh_token := some "R1", expires_at := .date (-10000),
    scope := some "chat" }

/-- The row rowEx after the refresh against respOmit at now = 0. -/
def rowExUpd : TokenRow :=
  { id := 1, username := "bot", access_token := "A2",
    refresh_token := some "R1", expires_at := .date 3600000,
    scope := some "chat" }

/-- Concrete stored row with no recorded expiry and no refresh token. -/
def rowNoRefresh : TokenRow :=
  { id := 1, username := "bot", access_token := "A1",
    refresh_token := none, expires_at := .null, scope := none }

/-- Concrete stored row expiring 15 minutes after now = 0. -/
def rowFresh : TokenRow :=
  { id := 1, username := "bot", access_token := "A1",
    refresh_token := some "R1", expires_at := .date 900000,
    scope := some "chat" }

/-- Concrete row for the identity that authenticated first. -/
def rowAlice : TokenRow :=
  { id := 1, username := "alice", access_token := "TA",
    refresh_token := some "RA", expires_at := .date 100, scope := some "" }

/-- Concrete row for the identity that authenticated later. -/
def rowBob : TokenRow :=
  { id := 2, username := "bob", access_token := "TB",
    refresh_token := some "RB", expires_at := .date 200, scope := some "" }

/-- Concrete callback environment where everything downstream succeeds. -/
def envEx : CallbackEnv :=
  { clientId := some "ci", clientSecret := some "cs", exchangeOk := true,
    access_token := "AT", refresh_token := some "RT", expires_in := 3600,
    scope := "chat", validateOk := true, login := "bot" }

/-- Helper: deleting a key from the state store makes membership tests for
that key fail. -/
theorem statesHas_delete (st : StateStore) (k : String) :
    statesHas (statesDelete st k) k = false := by
  induction st with
  | nil => rfl
  | cons p ps ih =>
    by_cases h : p.1 = k
    · simp only [statesDelete, List.filter_cons, h, bne_self_eq_false,
        Bool.false_eq_true, if_false]
      exact ih
    · simp only [statesDelete, List.filter_cons, bne_iff_ne, ne_eq, h,
        not_false_eq_true, if_true, statesHas, List.any_cons, beq_iff_eq,
        Bool.or_eq_false_iff]
      exact ⟨by simpa using h, ih⟩

/-- Helper: the row selected by maxIdRow belongs to the table. -/
theorem maxIdRow_mem (rows : List TokenRow) (m : TokenRow)
    (h : maxIdRow rows = some m) : m ∈ rows := by
  induction rows generalizing m with
  | nil => cases h
  | cons r rs ih =>
    rw [maxIdRow] at h
    cases hm : maxIdRow rs with
    | none =>
      rw [hm] at h
      have h2 : some r = some m := h
      injection h2 with h3
      subst h3
      exact List.mem_cons_self _ _
    | some m2 =>
      rw [hm] at h
      have h2 : (if m2.id > r.id then some m2 else some r) = some m := h
      by_cases hc : m2.id > r.id
      · rw [if_pos hc] at h2
        injection h2 with h3
        subst h3
        exact List.mem_cons_of_mem _ (ih m2 hm)
      · rw [if_neg hc] at h2
        injection h2 with h3
        subst h3
        exact List.mem_cons_self _ _

/-- Helper: maxIdRow returns the strictly greatest-id row when one exists. -/
theorem maxIdRow_eq_of_max (rows : List TokenRow) (a : TokenRow)
    (ha : a ∈ rows) (hmax : ∀ r ∈ rows, r ≠ a → r.id < a.id) :
    maxIdRow rows = some a := by
  induction rows with
  | nil => cases ha
  | cons r rs ih =>
    rw [maxIdRow]
    rcases List.mem_cons.mp ha with h1 | ha2
    · subst h1
      cases hm : maxIdRow rs with
      | none => rfl
      | some m =>
        show (if m.id > a.id then some m else some a) = some a
        by_cases hma : m = a
        · subst hma
          simp
        · have hlt : m.id < a.id :=
            hmax m (List.mem_cons_of_mem _ (maxIdRow_mem rs m hm)) hma
          rw [if_neg (by omega)]
    · have hmax2 : ∀ r2 ∈ rs, r2 ≠ a → r2.id < a.id := fun r2 h2 hne =>
        hmax r2 (List.mem_cons_of_mem _ h2) hne
      rw [ih ha2 hmax2]
      show (if a.id > r.id then some a else some r) = some a
      by_cases hra : r = a
      · subst hra
        simp
      · have hlt : r.id < a.id := hmax r (List.mem_cons_self _ _) hra
        rw [if_pos (by omega)]

/-- Claim C10: a non-empty expires_at string that does not parse as a date
makes isTokenExpired return false, because the NaN produced by the parse
compares false against the 5-minute margin. -/
theorem isTokenExpired_malformed (now : Int) :
    isTokenExpired ExpiryField.malformed now = false := rfl

/-- Claim C2, counterexample: a credential expiring exactly 5 minutes after
the current time satisfies expires_at less than or equal to now plus 5
minutes, yet isTokenExpired returns false because the source comparison is
strict. -/
theorem isTokenExpired_boundary_cex :
    (5 * 60 * 1000 : Int) ≤ 0 + 5 * 60 * 1000
    ∧ isTokenExpired (ExpiryField.date (5 * 60 * 1000)) 0 = false := by
  constructor
  · omega
  · rfl

/-- Claim C2, amended: isTokenExpired returns true when no expiry is
recorded or when expires_at is strictly less than now plus 5 minutes, and
false when expires_at is at least now plus 5 minutes. -/
theorem isTokenExpired_amended (t now : Int) :
    isTokenExpired ExpiryField.null now = true
    ∧ (t < now + 5 * 60 * 1000 → isTokenExpired (ExpiryField.date t) now = true)
    ∧ (now + 5 * 60 * 1000 ≤ t → isTokenExpired (ExpiryField.date t) now = false) := by
  refine ⟨rfl, ?_, ?_⟩ <;>
    · intro h
      simp [isTokenExpired, jsLt, jsSub, parseGetTime]
      omega

theorem isTokenExpired_amended_w :
    isTokenExpired ExpiryField.null 0 = true
    ∧ isTokenExpired (ExpiryField.date 100) 0 = true
    ∧ isTokenExpired (ExpiryField.date (5 * 60 * 1000)) 0 = false :=
  ⟨(isTokenExpired_amended 100 0).1,
   (isTokenExpired_amended 100 0).2.1 (by omega),
   (isTokenExpired_amended (5 * 60 * 1000) 0).2.2 (by omega)⟩

/-- Claim C5: every call of the authorization-initiation route purges all
registered state tokens issued more than 10 minutes before the current
time, and afterwards no registered state token is older than 10 minutes. -/
theorem initiate_purges_old (states : StateStore) (k0 : String) (now : Int) :
    (∀ k ts, (k, ts) ∈ states → ts < now - 10 * 60 * 1000 →
      (k, ts) ∉ initiateStates states k0 now)
    ∧ (∀ k ts, (k, ts) ∈ initiateStates states k0 now →
      now - ts ≤ 10 * 60 * 1000) := by
  constructor
  · intro k ts _ hold hmem
    rw [initiateStates, List.mem_filter] at hmem
    have h2 := hmem.2
    simp only [decide_eq_true_eq, Bool.not_eq_true'] at h2
    simp only [decide_eq_false_iff_not] at h2
    omega
  · intro k ts hmem
    rw [initiateStates, List.mem_filter] at hmem
    have h2 := hmem.2
    simp only [decide_eq_true_eq, Bool.not_eq_true'] at h2
    simp only [decide_eq_false_iff_not] at h2
    omega

theorem initiate_purges_old_w :
    ("old", (-700000 : Int)) ∉ initiateStates [("old", -700000)] "fresh" 0 :=
  (initiate_purges_old [("old", -700000)] "fresh" 0).1 "old" (-700000)
    (by decide) (by omega)

/-- Claim C6: refreshAccessToken fails exactly when the refresh token is
absent, the client id or secret is unset, or the provider response is not
ok; on success it returns the new access token, the provider refresh token
with fallback to the supplied one, and the relative expiry in seconds. -/
theorem refreshAccessToken_contract (rt cid cs : Option String)
    (resp : RefreshResponse) :
    ((rt = none ∨ cid = none ∨ cs = none ∨ resp.ok = false) →
      exceptIsError (refreshAccessToken rt cid cs resp) = true)
    ∧ (∀ t, rt = some t → cid.isSome = true → cs.isSome = true →
      resp.ok = true →
      refreshAccessToken rt cid cs resp =
        .ok { access_token := resp.access_token
              refresh_token := resp.refresh_token.getD t
              expires_in := resp.expires_in }) := by
  constructor
  · intro h
    rcases h with h | h | h | h <;>
      cases rt <;> cases cid <;> cases cs <;>
        simp_all [refreshAccessToken, exceptIsError]
  · intro t hrt hcid hcs hok
    subst hrt
    rcases Option.isSome_iff_exists.mp hcid with ⟨ci, rfl⟩
    rcases Option.isSome_iff_exists.mp hcs with ⟨cse, rfl⟩
    simp [refreshAccessToken, hok]

theorem refreshAccessToken_contract_w :
    refreshAccessToken (some "R1") (some "ci") (some "cs") respOmit =
      .ok { access_token := "A2", refresh_token := "R1", expires_in := 3600 } := by
  have h := (refreshAccessToken_contract (some "R1") (some "ci") (some "cs")
    respOmit).2 "R1" rfl rfl rfl rfl
  simpa [respOmit] using h

/-- Claim C9: on a disconnected event the reconnectAttempts counter is
incremented exactly when the budget allows an attempt and that attempt
reaches the increment, that is when getValidToken returned a token and
client.connect resolved; a null token, a thrown token error, or a thrown
connect error leaves the counter unchanged. -/
theorem stepMain_counter (a : Nat) (o : AttemptOutcome) :
    (stepMain a (BotEvent.disconnected o)).1 =
      if a < 5 ∧ o = AttemptOutcome.connectOk then a + 1 else a := by
  cases o <;> by_cases h : a < 5 <;> simp [stepMain, h]

/-- Claim C3, evaluation at the failing input: six consecutive disconnected
events whose scheduled attempts all fail at client.connect lead to six
performed reconnection attempts with no successful connection in between,
because failed attempts never increment the counter. -/
theorem mainReconnect_six_failures :
    runPerformed stepMain 0
      (List.replicate 6 (BotEvent.disconnected AttemptOutcome.connectError)) = 6 := by
  rfl

/-- Context for C3: the historical bot.js variant increments the counter on
every fired attempt, so with no intervening connected event it performs at
most 5 attempts from a fresh counter. -/
theorem botReconnect_budget (evs : List BotEvent) (a : Nat)
    (hc : ∀ e ∈ evs, e ≠ BotEvent.connected) (ha : a ≤ 5) :
    runPerformed stepBot a evs + a ≤ 5 := by
  induction evs generalizing a with
  | nil => simpa [runPerformed] using ha
  | cons e es ih =>
    cases e with
    | connected => exact absurd rfl (hc _ (List.mem_cons_self _ _))
    | disconnected o =>
      by_cases h : a < 5
      · have hrec := ih (a + 1) (fun e he => hc e (List.mem_cons_of_mem _ he))
          (by omega)
        simp [runPerformed, stepBot, h]
        omega
      · have hrec := ih a (fun e he => hc e (List.mem_cons_of_mem _ he)) ha
        simp [runPerformed, stepBot, h]
        omega

/-- Claim C4: a callback presenting a state value not in the registered set
is rejected as invalid state with the state store and the token table left
unchanged; an accepted callback deletes the state entry, producing exactly
the delete of the store and doing so before the code-for-token exchange
(the deletion happens whatever the exchange outcome is); consequently a
replay of the same state value is rejected identically to an unknown one
and persists nothing further. -/
theorem handleCallback_state_single_use (c c2 s : String)
    (states : StateStore) (rows : List TokenRow) (nextId nextId2 : Nat)
    (env env2 : CallbackEnv) (now now2 : Int) :
    (statesHas states s = false →
      handleCallback (some c) (some s) none states rows nextId env now =
        (.invalidState, states, rows))
    ∧ (statesHas states s = true →
      (handleCallback (some c) (some s) none states rows nextId env now).2.1 =
        statesDelete states s)
    ∧ (statesHas states s = true →
      handleCallback (some c2) (some s) none
          (handleCallback (some c) (some s) none states rows nextId env now).2.1
          (handleCallback (some c) (some s) none states rows nextId env now).2.2
          nextId2 env2 now2 =
        (.invalidState,
         (handleCallback (some c) (some s) none states rows nextId env now).2.1,
         (handleCallback (some c) (some s) none states rows nextId env now).2.2)) := by
  have hdel : statesHas states s = true →
      (handleCallback (some c) (some s) none states rows nextId env now).2.1 =
        statesDelete states s := by
    intro h
    simp only [handleCallback, h, if_true]
    split_ifs <;> rfl
  refine ⟨?_, hdel, ?_⟩
  · intro h
    simp [handleCallback, h]
  · intro h
    rw [hdel h]
    simp [handleCallback, statesHas_delete]

theorem handleCallback_state_single_use_w :
    handleCallback (some "c") (some "xyz") none [] [] 1 envEx 0 =
      (CallbackResult.invalidState, [], []) :=
  (handleCallback_state_single_use "c" "c" "xyz" [] [] 1 1 envEx envEx 0 0).1 rfl

/-- Claim C7: getValidToken returns null without error when no credential
is stored; raises the no-refresh-token error when the stored credential is
expired and carries no refresh token; and returns the stored credential
unchanged, with no provider refresh call and no database write, when it is
not expired. -/
theorem getValidToken_paths (rows : List TokenRow) (now : Int)
    (cid cs : Option String) (resp : RefreshResponse) :
    (getTwitchToken rows = none →
      getValidToken rows now cid cs resp = ⟨.ok none, rows, 0⟩)
    ∧ (∀ tok, getTwitchToken rows = some tok →
      isTokenExpired tok.expires_at now = true → tok.refresh_token = none →
      getValidToken rows now cid cs resp =
        ⟨.error "Token expired and no refresh token available. Please re-authenticate.",
         rows, 0⟩)
    ∧ (∀ tok, getTwitchToken rows = some tok →
      isTokenExpired tok.expires_at now = false →
      getValidToken rows now cid cs resp = ⟨.ok (some tok), rows, 0⟩) := by
  refine ⟨?_, ?_, ?_⟩
  · intro h
    simp [getValidToken, h]
  · intro tok hget hexp hrt
    simp [getValidToken, hget, hexp, hrt]
  · intro tok hget hexp
    simp [getValidToken, hget, hexp]

theorem getValidToken_paths_w :
    getValidToken [] 0 none none respFail = ⟨.ok none, [], 0⟩
    ∧ getValidToken [rowNoRefresh] 0 none none respFail =
      ⟨.error "Token expired and no refresh token available. Please re-authenticate.",
       [rowNoRefresh], 0⟩
    ∧ getValidToken [rowFresh] 0 none none respFail =
      ⟨.ok (some rowFresh.toData), [rowFresh], 0⟩ :=
  ⟨(getValidToken_paths [] 0 none none respFail).1 rfl,
   (getValidToken_paths [rowNoRefresh] 0 none none respFail).2.1
     rowNoRefresh.toData rfl rfl rfl,
   (getValidToken_paths [rowFresh] 0 none none respFail).2.2
     rowFresh.toData rfl (by decide)⟩

/-- Claim C8: the credential read used by getValidToken and the status
route returns the row with the greatest id, the most recently inserted one,
regardless of username; when the table also holds a row for a different
identity, that identity is not the one returned. -/
theorem getTwitchToken_latest (rows : List TokenRow) (a b : TokenRow)
    (ha : a ∈ rows) (hmax : ∀ r ∈ rows, r ≠ a → r.id < a.id)
    (_hb : b ∈ rows) (hbu : b.username ≠ a.username) :
    getTwitchToken rows = some a.toData ∧ a.toData.username ≠ b.username := by
  refine ⟨?_, ?_⟩
  · rw [getTwitchToken, maxIdRow_eq_of_max rows a ha hmax]
    rfl
  · exact fun heq => hbu heq.symm

theorem getTwitchToken_latest_w :
    getTwitchToken [rowAlice, rowBob] = some rowBob.toData
    ∧ rowBob.toData.username ≠ rowAlice.username :=
  getTwitchToken_latest [rowAlice, rowBob] rowBob rowAlice (by decide)
    (by decide) (by decide) (by decide)

/-- Claim C1: when the stored credential is expired and has a refresh
token, and the provider refresh succeeds, the record persisted by
getValidToken before it returns carries the provider's new access token,
the previous refresh token when the provider omits one, and an absolute
expiry of the current time plus the provider expires_in duration (seconds,
stored as now + expires_in * 1000 milliseconds). -/
theorem getValidToken_refresh_persists (rows : List TokenRow) (now : Int)
    (ci cse : String) (resp : RefreshResponse) (tok : TokenData) (rt : String)
    (r : TokenRow)
    (hget : getTwitchToken rows = some tok)
    (hexp : isTokenExpired tok.expires_at now = true)
    (hrt : tok.refresh_token = some rt)
    (hok : resp.ok = true)
    (hr : r ∈ (getValidToken rows now (some ci) (some cse) resp).db)
    (hu : r.username = tok.username) :
    r.access_token = resp.access_token
    ∧ (resp.refresh_token = none → r.refresh_token = some rt)
    ∧ r.expires_at = ExpiryField.date (now + resp.expires_in * 1000) := by
  have hdb : (getValidToken rows now (some ci) (some cse) resp).db =
      updateTwitchToken rows tok.username resp.access_token
        (some (resp.refresh_token.getD rt)) (now + resp.expires_in * 1000) := by
    simp [getValidToken, hget, hexp, hrt, refreshAccessToken, hok]
  rw [hdb] at hr
  rcases List.mem_map.mp hr with ⟨r0, hr0, hmap⟩
  by_cases h0 : r0.username = tok.username
  · rw [if_pos h0] at hmap
    subst hmap
    refine ⟨rfl, ?_, rfl⟩
    intro hnone
    simp [hnone]
  · rw [if_neg h0] at hmap
    subst hmap
    exact absurd hu h0

theorem getValidToken_refresh_persists_w :
    rowExUpd.access_token = respOmit.access_token
    ∧ (respOmit.refresh_token = none → rowExUpd.refresh_token = some "R1")
    ∧ rowExUpd.expires_at = ExpiryField.date (0 + respOmit.expires_in * 1000) :=
  getValidToken_refresh_persists [rowEx] 0 "ci" "cs" respOmit rowEx.toData
    "R1" rowExUpd rfl (by decide) rfl rfl (by decide) rfl

end TwitchBot
